import Mathlib

/-! The address variant `asio::ip::address`.

A shallow embedding of `asio/ip/impl/address.ipp` (the build with
`CONFIG_LWIP_IPV6` defined) and the properties of the address variant:
equality, ordering, parsing with IPv6-then-IPv4 fallback, and the
family-specific extractors. The build without `CONFIG_LWIP_IPV6` is embedded
separately, in the namespace `v4only`.

The leaf types `address_v4` and `address_v6` live in other files of the
library; they enter here as a parameter (`Leaf`) carrying exactly the
operations `address.ipp` calls on them.
-/

namespace asio

/-- Modelled from the spec: `asio::error_code`, declared outside `address.ipp`.
An integer value with a category tag. -/
structure error_code where
  value : Int
  category : Nat
deriving DecidableEq, Repr

/-- The default-constructed `asio::error_code ec;` (value 0, system category). -/
def error_code.cleared : error_code := ⟨0, 0⟩

/-- The boolean conversion of an error code: `if (ec)`; `!ec` is its negation. -/
def error_code.failed (ec : error_code) : Bool := ec.value != 0

/-- Modelled from the spec: the two errors a function of `address.ipp` can raise,
`asio::system_error` (carrying an error code) and `bad_address_cast`, both
declared in other headers. -/
inductive exception where
  | system_error (ec : error_code)
  | bad_address_cast
deriving DecidableEq, Repr

namespace detail

/-- Modelled from the spec: `asio::detail::throw_error(ec)` from
`asio/detail/throw_error.hpp`: raises a `system_error` carrying `ec` when `ec`
holds an error, and returns otherwise. -/
def throw_error (ec : error_code) : Except exception Unit :=
  if ec.failed then Except.error (exception.system_error ec) else Except.ok ()

end detail

namespace ip

/-- Modelled from the spec: the family discriminator of `class address`, the
enumeration with the two enumerators `ipv4` and `ipv6` that `address.ipp`
stores in `type_` (its declaration is in `address.hpp`). -/
inductive addr_type where
  | ipv4
  | ipv6
deriving DecidableEq, Repr

/-- Modelled from the spec: the fixed ordering of the family enumeration, ipv4
before ipv6, as the integral values that `<` and `>` on `type_` compare. -/
def addr_type.toNat : addr_type → Nat
  | addr_type.ipv4 => 0
  | addr_type.ipv6 => 1

/-- The operations `address.ipp` uses of a leaf address type (`address_v4` or
`address_v6`): default construction, `operator==`, `operator<`, `to_string`,
the three predicates and the non-throwing parser `make_address_vN(str, ec)`,
which receives `ec` by reference and is modelled by passing it in and out. -/
structure Leaf where
  T : Type
  dflt : T
  eq : T → T → Bool
  lt : T → T → Bool
  to_string : T → String
  is_loopback : T → Bool
  is_unspecified : T → Bool
  is_multicast : T → Bool
  make : String → error_code → T × error_code

/-- The data members of `class address`, as the constructors of `address.ipp`
initialise them. -/
structure address (V4 V6 : Leaf) where
  type_ : addr_type
  ipv4_address_ : V4.T
  ipv6_address_ : V6.T

namespace address

variable {V4 V6 : Leaf}

/-- `address::address()`. -/
def default : address V4 V6 :=
  { type_ := addr_type.ipv4, ipv4_address_ := V4.dflt, ipv6_address_ := V6.dflt }

/-- `address::address(const address_v4&)`. -/
def of_v4 (ipv4_address : V4.T) : address V4 V6 :=
  { type_ := addr_type.ipv4, ipv4_address_ := ipv4_address, ipv6_address_ := V6.dflt }

/-- `address::address(const address_v6&)`. -/
def of_v6 (ipv6_address : V6.T) : address V4 V6 :=
  { type_ := addr_type.ipv6, ipv4_address_ := V4.dflt, ipv6_address_ := ipv6_address }

/-- `address::to_v4()`. -/
def to_v4 (a : address V4 V6) : Except exception V4.T :=
  if a.type_ ≠ addr_type.ipv4 then Except.error exception.bad_address_cast
  else Except.ok a.ipv4_address_

/-- `address::to_v6()`. -/
def to_v6 (a : address V4 V6) : Except exception V6.T :=
  if a.type_ ≠ addr_type.ipv6 then Except.error exception.bad_address_cast
  else Except.ok a.ipv6_address_

/-- `operator==(const address&, const address&)`. -/
def eq (a1 a2 : address V4 V6) : Bool :=
  if a1.type_ ≠ a2.type_ then false
  else if a1.type_ = addr_type.ipv6 then V6.eq a1.ipv6_address_ a2.ipv6_address_
  else V4.eq a1.ipv4_address_ a2.ipv4_address_

/-- `operator<(const address&, const address&)`. -/
def lt (a1 a2 : address V4 V6) : Bool :=
  if a1.type_.toNat < a2.type_.toNat then true
  else if a1.type_.toNat > a2.type_.toNat then false
  else if a1.type_ = addr_type.ipv6 then V6.lt a1.ipv6_address_ a2.ipv6_address_
  else V4.lt a1.ipv4_address_ a2.ipv4_address_

end address

/-- `make_address(const char* str, asio::error_code& ec)`: the result and the
value left in `ec`. -/
def make_address (V4 V6 : Leaf) (str : String) (ec : error_code) :
    address V4 V6 × error_code :=
  let r6 := V6.make str ec
  if !r6.2.failed then (address.of_v6 r6.1, r6.2)
  else
    let r4 := V4.make str r6.2
    if !r4.2.failed then (address.of_v4 r4.1, r4.2)
    else (address.default, r4.2)

/-- `make_address(const char* str)`, the throwing form. -/
def make_address_throwing (V4 V6 : Leaf) (str : String) :
    Except exception (address V4 V6) :=
  let r := make_address V4 V6 str error_code.cleared
  match detail.throw_error r.2 with
  | Except.error e => Except.error e
  | Except.ok _ => Except.ok r.1

/-- The payload selected by the family of `a1`, compared with a leaf relation. -/
def active_rel {V4 V6 : Leaf} (r4 : V4.T → V4.T → Bool) (r6 : V6.T → V6.T → Bool)
    (a1 a2 : address V4 V6) : Bool :=
  match a1.type_ with
  | addr_type.ipv4 => r4 a1.ipv4_address_ a2.ipv4_address_
  | addr_type.ipv6 => r6 a1.ipv6_address_ a2.ipv6_address_

namespace address

variable {V4 V6 : Leaf}

/-- `address::address(const address& other)`; the move constructor
`address::address(address&& other)` has the same initialisers. -/
def copy (other : address V4 V6) : address V4 V6 :=
  { type_ := other.type_, ipv4_address_ := other.ipv4_address_,
    ipv6_address_ := other.ipv6_address_ }

/-- `address::operator=(const address& other)` applied to `a`: the state of `a`
afterwards. The move assignment has the same body. -/
def assign (a other : address V4 V6) : address V4 V6 :=
  { a with type_ := other.type_, ipv4_address_ := other.ipv4_address_,
           ipv6_address_ := other.ipv6_address_ }

/-- `address::operator=(const address_v4& ipv4_address)` applied to `a`. -/
def assign_v4 (a : address V4 V6) (ipv4_address : V4.T) : address V4 V6 :=
  { a with type_ := addr_type.ipv4, ipv4_address_ := ipv4_address,
           ipv6_address_ := V6.dflt }

/-- `address::operator=(const address_v6& ipv6_address)` applied to `a`. -/
def assign_v6 (a : address V4 V6) (ipv6_address : V6.T) : address V4 V6 :=
  { a with type_ := addr_type.ipv6, ipv4_address_ := V4.dflt,
           ipv6_address_ := ipv6_address }

/-- `address::to_string()`. -/
def to_string (a : address V4 V6) : String :=
  if a.type_ = addr_type.ipv6 then V6.to_string a.ipv6_address_
  else V4.to_string a.ipv4_address_

/-- `address::is_loopback()`. -/
def is_loopback (a : address V4 V6) : Bool :=
  if a.type_ = addr_type.ipv4 then V4.is_loopback a.ipv4_address_
  else V6.is_loopback a.ipv6_address_

/-- `address::is_unspecified()`. -/
def is_unspecified (a : address V4 V6) : Bool :=
  if a.type_ = addr_type.ipv4 then V4.is_unspecified a.ipv4_address_
  else V6.is_unspecified a.ipv6_address_

/-- `address::is_multicast()`. -/
def is_multicast (a : address V4 V6) : Bool :=
  if a.type_ = addr_type.ipv4 then V4.is_multicast a.ipv4_address_
  else V6.is_multicast a.ipv6_address_

end address

/-- The C string a `std::string` hands out through `c_str()`: the characters
before the first NUL; a reader of a `const char*` sees nothing beyond it. -/
def c_str (s : String) : String :=
  String.mk (s.data.takeWhile (fun c => c != Char.ofNat 0))

/-- `make_address(const std::string& str, asio::error_code& ec)`. -/
def make_address_string (V4 V6 : Leaf) (str : String) (ec : error_code) :
    address V4 V6 × error_code :=
  make_address V4 V6 (c_str str) ec

/-- `make_address(const std::string& str)`, the throwing form. -/
def make_address_string_throwing (V4 V6 : Leaf) (str : String) :
    Except exception (address V4 V6) :=
  make_address_throwing V4 V6 (c_str str)

/-- `make_address(string_view str, asio::error_code& ec)`: the view is converted
to a `std::string` holding the same characters. -/
def make_address_string_view (V4 V6 : Leaf) (str : String) (ec : error_code) :
    address V4 V6 × error_code :=
  make_address_string V4 V6 str ec

/-- `make_address(string_view str)`, the throwing form. -/
def make_address_string_view_throwing (V4 V6 : Leaf) (str : String) :
    Except exception (address V4 V6) :=
  make_address_string_throwing V4 V6 str

/-- The addresses a program can obtain through the public operations: the
constructors, copy and move, the assignment operators, and the results of
`make_address`. -/
inductive Reachable (V4 V6 : Leaf) : address V4 V6 → Prop where
  | default : Reachable V4 V6 address.default
  | of_v4 (v : V4.T) : Reachable V4 V6 (address.of_v4 v)
  | of_v6 (v : V6.T) : Reachable V4 V6 (address.of_v6 v)
  | copy (other : address V4 V6) :
      Reachable V4 V6 other → Reachable V4 V6 (address.copy other)
  | assign (a other : address V4 V6) :
      Reachable V4 V6 a → Reachable V4 V6 other → Reachable V4 V6 (address.assign a other)
  | assign_v4 (a : address V4 V6) (v : V4.T) :
      Reachable V4 V6 a → Reachable V4 V6 (address.assign_v4 a v)
  | assign_v6 (a : address V4 V6) (v : V6.T) :
      Reachable V4 V6 a → Reachable V4 V6 (address.assign_v6 a v)
  | make_address (str : String) (ec : error_code) :
      Reachable V4 V6 (make_address V4 V6 str ec).1
  | make_address_throwing (str : String) (a : address V4 V6) :
      make_address_throwing V4 V6 str = Except.ok a → Reachable V4 V6 a

/-- The representation invariant: the payload that the family does not select
holds the default value of its leaf type. -/
def inactive_default {V4 V6 : Leaf} (a : address V4 V6) : Prop :=
  (a.type_ = addr_type.ipv6 → a.ipv4_address_ = V4.dflt) ∧
  (a.type_ = addr_type.ipv4 → a.ipv6_address_ = V6.dflt)

/-! ## The build without IPv6 support

`address.ipp` with `CONFIG_LWIP_IPV6` undefined: the class has no
`ipv6_address_` member and every `#ifdef CONFIG_LWIP_IPV6` block is absent. -/

namespace v4only

/-- The data members of `class address` in the build without IPv6 support. -/
structure address (V4 : Leaf) where
  type_ : addr_type
  ipv4_address_ : V4.T

namespace address

variable {V4 : Leaf}

/-- `address::address()`. -/
def default : address V4 :=
  { type_ := addr_type.ipv4, ipv4_address_ := V4.dflt }

/-- `address::address(const address_v4&)`. -/
def of_v4 (ipv4_address : V4.T) : address V4 :=
  { type_ := addr_type.ipv4, ipv4_address_ := ipv4_address }

/-- `address::address(const address& other)` and the move constructor. -/
def copy (other : address V4) : address V4 :=
  { type_ := other.type_, ipv4_address_ := other.ipv4_address_ }

/-- `address::operator=(const address& other)` and the move assignment, applied
to `a`. -/
def assign (a other : address V4) : address V4 :=
  { a with type_ := other.type_, ipv4_address_ := other.ipv4_address_ }

/-- `address::operator=(const address_v4& ipv4_address)` applied to `a`. -/
def assign_v4 (a : address V4) (ipv4_address : V4.T) : address V4 :=
  { a with type_ := addr_type.ipv4, ipv4_address_ := ipv4_address }

/-- `address::to_v4()`. -/
def to_v4 (a : address V4) : Except exception V4.T :=
  if a.type_ ≠ addr_type.ipv4 then Except.error exception.bad_address_cast
  else Except.ok a.ipv4_address_

/-- `address::to_string()`. -/
def to_string (a : address V4) : String :=
  V4.to_string a.ipv4_address_

/-- `address::is_loopback()`. -/
def is_loopback (a : address V4) : Bool :=
  V4.is_loopback a.ipv4_address_

/-- `address::is_unspecified()`. -/
def is_unspecified (a : address V4) : Bool :=
  V4.is_unspecified a.ipv4_address_

/-- `address::is_multicast()`. -/
def is_multicast (a : address V4) : Bool :=
  V4.is_multicast a.ipv4_address_

/-- `operator==(const address&, const address&)`. -/
def eq (a1 a2 : address V4) : Bool :=
  if a1.type_ ≠ a2.type_ then false
  else V4.eq a1.ipv4_address_ a2.ipv4_address_

/-- `operator<(const address&, const address&)`. -/
def lt (a1 a2 : address V4) : Bool :=
  if a1.type_.toNat < a2.type_.toNat then true
  else if a1.type_.toNat > a2.type_.toNat then false
  else V4.lt a1.ipv4_address_ a2.ipv4_address_

end address

/-- `make_address(const char* str, asio::error_code& ec)`. -/
def make_address (V4 : Leaf) (str : String) (ec : error_code) :
    address V4 × error_code :=
  let r4 := V4.make str ec
  if !r4.2.failed then (address.of_v4 r4.1, r4.2)
  else (address.default, r4.2)

/-- `make_address(const char* str)`, the throwing form. -/
def make_address_throwing (V4 : Leaf) (str : String) :
    Except exception (address V4) :=
  let r := make_address V4 str error_code.cleared
  match detail.throw_error r.2 with
  | Except.error e => Except.error e
  | Except.ok _ => Except.ok r.1

/-- The addresses a program can obtain through the public operations of the
build without IPv6 support. -/
inductive Reachable (V4 : Leaf) : address V4 → Prop where
  | default : Reachable V4 address.default
  | of_v4 (v : V4.T) : Reachable V4 (address.of_v4 v)
  | copy (other : address V4) : Reachable V4 other → Reachable V4 (address.copy other)
  | assign (a other : address V4) :
      Reachable V4 a → Reachable V4 other → Reachable V4 (address.assign a other)
  | assign_v4 (a : address V4) (v : V4.T) :
      Reachable V4 a → Reachable V4 (address.assign_v4 a v)
  | make_address (str : String) (ec : error_code) :
      Reachable V4 (make_address V4 str ec).1
  | make_address_throwing (str : String) (a : address V4) :
      make_address_throwing V4 str = Except.ok a → Reachable V4 a

end v4only

/-! ## Properties of Bool-valued relations -/

/-- A Bool-valued relation is a strict weak order: irreflexive, transitive, and
with transitive incomparability. -/
structure StrictWeakOrderB {α : Type} (lt : α → α → Bool) : Prop where
  irrefl : ∀ a, lt a a = false
  trans : ∀ a b c, lt a b = true → lt b c = true → lt a c = true
  incomp_trans : ∀ a b c, lt a b = false → lt b a = false →
    lt b c = false → lt c b = false → lt a c = false ∧ lt c a = false

/-- A Bool-valued relation is an equivalence relation. -/
structure EquivalenceB {α : Type} (eq : α → α → Bool) : Prop where
  refl : ∀ a, eq a a = true
  symm : ∀ a b, eq a b = true → eq b a = true
  trans : ∀ a b c, eq a b = true → eq b c = true → eq a c = true

/-- The relation `lt` is a strict order, total up to `eq`: two values are
incomparable under `lt` exactly when `eq` holds of them. -/
structure StrictTotalOrderB {α : Type} (lt eq : α → α → Bool) : Prop where
  irrefl : ∀ a, lt a a = false
  trans : ∀ a b c, lt a b = true → lt b c = true → lt a c = true
  incomp_iff_eq : ∀ a b, eq a b = true ↔ (lt a b = false ∧ lt b a = false)

/-- A leaf parser writes `ec` on every call: what it returns and what it leaves
in `ec` do not depend on the value `ec` held on entry. -/
def WritesEc {α : Type} (make : String → error_code → α × error_code) : Prop :=
  ∀ (str : String) (e1 e2 : error_code), make str e1 = make str e2

/-! ## Two concrete leaves

Small instances of the leaf interface, on which the general statements are
exercised at concrete addresses. -/

/-- The error a sample parser leaves for text it does not accept (`EINVAL`). -/
def invalid_argument : error_code := ⟨22, 0⟩

/-- The texts the sample IPv4 parser accepts, with their 32-bit values. -/
def sample_v4_table (str : String) : Option Nat :=
  if str = "0.0.0.0" then some 0
  else if str = "127.0.0.1" then some 2130706433
  else if str = "192.168.1.10" then some 3232235786
  else if str = "224.0.0.1" then some 3758096385
  else none

/-- A sample IPv4 leaf: an address is its 32-bit value in host order, compared
as a number. -/
def sample_v4 : Leaf where
  T := Nat
  dflt := 0
  eq := fun a b => decide (a = b)
  lt := fun a b => decide (a < b)
  to_string := fun a =>
    toString (a / 16777216 % 256) ++ "." ++ toString (a / 65536 % 256) ++ "." ++
      toString (a / 256 % 256) ++ "." ++ toString (a % 256)
  is_loopback := fun a => decide (a / 16777216 % 256 = 127)
  is_unspecified := fun a => decide (a = 0)
  is_multicast := fun a => decide (a / 268435456 % 16 = 14)
  make := fun str _ =>
    match sample_v4_table str with
    | some v => (v, error_code.cleared)
    | none => (0, invalid_argument)

/-- The texts the sample IPv6 parser accepts: the 128-bit value and the scope
id. -/
def sample_v6_table (str : String) : Option (Nat × Nat) :=
  if str = "::" then some (0, 0)
  else if str = "::1" then some (1, 0)
  else if str = "fe80::1%2" then some (338288524927261089654018896841347694593, 2)
  else if str = "ff02::1" then some (338963523518870617245727861364146307073, 0)
  else none

/-- A sample IPv6 leaf: an address is its 128-bit value together with a scope
id, compared lexicographically. -/
def sample_v6 : Leaf where
  T := Nat × Nat
  dflt := (0, 0)
  eq := fun a b => decide (a.1 = b.1) && decide (a.2 = b.2)
  lt := fun a b => decide (a.1 < b.1) || (decide (a.1 = b.1) && decide (a.2 < b.2))
  to_string := fun a =>
    if a = (0, 0) then "::"
    else if a = (1, 0) then "::1"
    else if a = (338288524927261089654018896841347694593, 2) then "fe80::1%2"
    else if a = (338963523518870617245727861364146307073, 0) then "ff02::1"
    else toString a.1 ++ "%" ++ toString a.2
  is_loopback := fun a => decide (a.1 = 1)
  is_unspecified := fun a => decide (a.1 = 0)
  is_multicast := fun a => decide (a.1 / 1329227995784915872903807060280344576 = 255)
  make := fun str _ =>
    match sample_v6_table str with
    | some v => (v, error_code.cleared)
    | none => ((0, 0), invalid_argument)

/-- An address over the two sample leaves, from its three data members. -/
def sample_address (t : addr_type) (p : Nat) (q : Nat × Nat) :
    address sample_v4 sample_v6 :=
  { type_ := t, ipv4_address_ := p, ipv6_address_ := q }

/-! ## Equality and ordering -/

theorem sample_v4_lt_swo : StrictWeakOrderB sample_v4.lt := by
  refine ⟨?_, ?_, ?_⟩
  · intro a; simp [sample_v4]
  · intro a b c; simp only [sample_v4, decide_eq_true_eq]; omega
  · intro a b c; simp only [sample_v4, decide_eq_false_iff_not]; omega

theorem sample_v6_lt_swo : StrictWeakOrderB sample_v6.lt := by
  refine ⟨?_, ?_, ?_⟩
  · intro a; simp [sample_v6]
  · rintro ⟨a1, a2⟩ ⟨b1, b2⟩ ⟨c1, c2⟩
    simp only [sample_v6, Bool.or_eq_true, Bool.and_eq_true, decide_eq_true_eq]
    omega
  · rintro ⟨a1, a2⟩ ⟨b1, b2⟩ ⟨c1, c2⟩
    simp only [sample_v6, Bool.or_eq_false_iff, Bool.and_eq_false_imp,
      decide_eq_true_eq, decide_eq_false_iff_not]
    omega

theorem sample_v4_eq_equiv : EquivalenceB sample_v4.eq := by
  refine ⟨?_, ?_, ?_⟩
  · intro a; simp [sample_v4]
  · intro a b; simp only [sample_v4, decide_eq_true_eq]; omega
  · intro a b c; simp only [sample_v4, decide_eq_true_eq]; omega

theorem sample_v6_eq_equiv : EquivalenceB sample_v6.eq := by
  refine ⟨?_, ?_, ?_⟩
  · intro a; simp [sample_v6]
  · rintro ⟨a1, a2⟩ ⟨b1, b2⟩
    simp only [sample_v6, Bool.and_eq_true, decide_eq_true_eq]; omega
  · rintro ⟨a1, a2⟩ ⟨b1, b2⟩ ⟨c1, c2⟩
    simp only [sample_v6, Bool.and_eq_true, decide_eq_true_eq]; omega

theorem sample_v4_total : StrictTotalOrderB sample_v4.lt sample_v4.eq := by
  refine ⟨?_, ?_, ?_⟩
  · intro a; simp [sample_v4]
  · intro a b c; simp only [sample_v4, decide_eq_true_eq]; omega
  · intro a b; simp only [sample_v4, decide_eq_true_eq, decide_eq_false_iff_not]; omega

theorem sample_v6_total : StrictTotalOrderB sample_v6.lt sample_v6.eq := by
  refine ⟨?_, ?_, ?_⟩
  · intro a; simp [sample_v6]
  · rintro ⟨a1, a2⟩ ⟨b1, b2⟩ ⟨c1, c2⟩
    simp only [sample_v6, Bool.or_eq_true, Bool.and_eq_true, decide_eq_true_eq]
    omega
  · rintro ⟨a1, a2⟩ ⟨b1, b2⟩
    simp only [sample_v6, Bool.and_eq_true, Bool.or_eq_false_iff, Bool.and_eq_false_imp,
      decide_eq_true_eq, decide_eq_false_iff_not]
    omega

theorem sample_v4_writes_ec : WritesEc sample_v4.make := fun _ _ _ => rfl

theorem sample_v6_writes_ec : WritesEc sample_v6.make := fun _ _ _ => rfl

/-- C1: `a1 == a2` holds exactly when the two addresses have the same family and
their active payloads are equal under the leaf equality of that family; an
ipv4-family address and an ipv6-family address are never equal, whatever the
payloads. -/
theorem eq_iff_family_and_active_payload (V4 V6 : Leaf) (a1 a2 : address V4 V6) :
    (address.eq a1 a2 = true ↔
      (a1.type_ = a2.type_ ∧ active_rel V4.eq V6.eq a1 a2 = true)) ∧
    (∀ (x4 y4 : V4.T) (x6 y6 : V6.T),
      address.eq (@address.mk V4 V6 addr_type.ipv4 x4 x6)
        (@address.mk V4 V6 addr_type.ipv6 y4 y6) = false ∧
      address.eq (@address.mk V4 V6 addr_type.ipv6 y4 y6)
        (@address.mk V4 V6 addr_type.ipv4 x4 x6) = false) := by
  refine ⟨?_, fun x4 y4 x6 y6 => ⟨by simp [address.eq], by simp [address.eq]⟩⟩
  obtain ⟨t1, p1, q1⟩ := a1
  obtain ⟨t2, p2, q2⟩ := a2
  cases t1 <;> cases t2 <;> simp [address.eq, active_rel]

/-- C2: `operator<` compares by family first and by active payload second. An
ipv4-family address is below every ipv6-family address and never above one,
whatever the payloads; two addresses of one family compare as their active
payloads do under the leaf `operator<`. -/
theorem lt_family_then_active_payload (V4 V6 : Leaf) (a1 a2 : address V4 V6) :
    (a1.type_ = addr_type.ipv4 → a2.type_ = addr_type.ipv6 →
      address.lt a1 a2 = true ∧ address.lt a2 a1 = false) ∧
    (a1.type_ = a2.type_ →
      (address.lt a1 a2 = true ↔ active_rel V4.lt V6.lt a1 a2 = true)) := by
  obtain ⟨t1, p1, q1⟩ := a1
  obtain ⟨t2, p2, q2⟩ := a2
  cases t1 <;> cases t2 <;> simp [address.lt, active_rel, addr_type.toNat]

theorem lt_family_then_active_payload_witness :
    (address.lt (sample_address addr_type.ipv4 3232235786 (1, 0))
        (sample_address addr_type.ipv6 0 (0, 0)) = true ∧
      address.lt (sample_address addr_type.ipv6 0 (0, 0))
        (sample_address addr_type.ipv4 3232235786 (1, 0)) = false) ∧
    (address.lt (sample_address addr_type.ipv6 9 (1, 0))
        (sample_address addr_type.ipv6 4 (1, 2)) = true ↔
      active_rel sample_v4.lt sample_v6.lt
        (sample_address addr_type.ipv6 9 (1, 0))
        (sample_address addr_type.ipv6 4 (1, 2)) = true) :=
  ⟨(lt_family_then_active_payload sample_v4 sample_v6
      (sample_address addr_type.ipv4 3232235786 (1, 0))
      (sample_address addr_type.ipv6 0 (0, 0))).1 rfl rfl,
   (lt_family_then_active_payload sample_v4 sample_v6
      (sample_address addr_type.ipv6 9 (1, 0))
      (sample_address addr_type.ipv6 4 (1, 2))).2 rfl⟩

/-- On one family, `operator<` is the leaf order of that family. -/
theorem lt_same_family (V4 V6 : Leaf) (t : addr_type) (p1 p2 : V4.T) (q1 q2 : V6.T) :
    address.lt (@address.mk V4 V6 t p1 q1) (@address.mk V4 V6 t p2 q2) =
      (match t with
       | addr_type.ipv4 => V4.lt p1 p2
       | addr_type.ipv6 => V6.lt q1 q2) := by
  cases t <;> simp [address.lt, addr_type.toNat]

/-- C3: when the leaf `operator<` of `address_v4` and of `address_v6` are strict
weak orders, `operator<` on `address` is a strict weak order over all
addresses, mixed-family triples included: irreflexive, transitive, and with
transitive incomparability. -/
theorem lt_strict_weak_order (V4 V6 : Leaf)
    (h4 : StrictWeakOrderB V4.lt) (h6 : StrictWeakOrderB V6.lt) :
    StrictWeakOrderB (@address.lt V4 V6) := by
  refine ⟨?_, ?_, ?_⟩
  · rintro ⟨t, p, q⟩
    rw [lt_same_family]
    cases t
    · exact h4.irrefl p
    · exact h6.irrefl q
  · rintro ⟨t1, p1, q1⟩ ⟨t2, p2, q2⟩ ⟨t3, p3, q3⟩
    cases t1 <;> cases t2 <;> cases t3 <;>
      simp [address.lt, addr_type.toNat]
    · exact h4.trans p1 p2 p3
    · exact h6.trans q1 q2 q3
  · rintro ⟨t1, p1, q1⟩ ⟨t2, p2, q2⟩ ⟨t3, p3, q3⟩
    cases t1 <;> cases t2 <;> cases t3 <;>
      simp [address.lt, addr_type.toNat]
    · exact h4.incomp_trans p1 p2 p3
    · exact h6.incomp_trans q1 q2 q3

theorem lt_strict_weak_order_witness :
    StrictWeakOrderB (@address.lt sample_v4 sample_v6) :=
  lt_strict_weak_order sample_v4 sample_v6 sample_v4_lt_swo sample_v6_lt_swo

/-- A strict order is asymmetric. -/
theorem StrictTotalOrderB.asymm {α : Type} {lt eq : α → α → Bool}
    (h : StrictTotalOrderB lt eq) (a b : α) (hab : lt a b = true) : lt b a = false := by
  cases hba : lt b a
  · rfl
  · have := h.trans a b a hab hba
    rw [h.irrefl a] at this
    exact this.symm

/-- C4: the ordering is consistent with equality. When each leaf `operator<` is a
strict total order whose incomparability is that leaf's `operator==`, exactly
one of `a < b`, `a == b`, `b < a` holds of every pair of addresses, and
`a == b` holds exactly when neither `a < b` nor `b < a`; the inactive payloads
play no part. -/
theorem lt_consistent_with_eq (V4 V6 : Leaf)
    (h4 : StrictTotalOrderB V4.lt V4.eq) (h6 : StrictTotalOrderB V6.lt V6.eq)
    (a b : address V4 V6) :
    ((address.lt a b = true ∧ address.eq a b = false ∧ address.lt b a = false) ∨
     (address.lt a b = false ∧ address.eq a b = true ∧ address.lt b a = false) ∨
     (address.lt a b = false ∧ address.eq a b = false ∧ address.lt b a = true)) ∧
    (address.eq a b = true ↔ (address.lt a b = false ∧ address.lt b a = false)) := by
  obtain ⟨t1, p1, q1⟩ := a
  obtain ⟨t2, p2, q2⟩ := b
  cases t1 <;> cases t2 <;> simp [address.lt, address.eq, addr_type.toNat]
  · have hi := h4.incomp_iff_eq p1 p2
    have ha := h4.asymm p1 p2
    have hb := h4.asymm p2 p1
    cases h1 : V4.lt p1 p2 <;> cases h2 : V4.lt p2 p1 <;> cases h3 : V4.eq p1 p2 <;>
      simp_all
  · have hi := h6.incomp_iff_eq q1 q2
    have ha := h6.asymm q1 q2
    have hb := h6.asymm q2 q1
    cases h1 : V6.lt q1 q2 <;> cases h2 : V6.lt q2 q1 <;> cases h3 : V6.eq q1 q2 <;>
      simp_all

theorem lt_consistent_with_eq_witness :
    ((address.lt (sample_address addr_type.ipv6 7 (1, 0))
          (sample_address addr_type.ipv6 8 (1, 0)) = true ∧
        address.eq (sample_address addr_type.ipv6 7 (1, 0))
          (sample_address addr_type.ipv6 8 (1, 0)) = false ∧
        address.lt (sample_address addr_type.ipv6 8 (1, 0))
          (sample_address addr_type.ipv6 7 (1, 0)) = false) ∨
      (address.lt (sample_address addr_type.ipv6 7 (1, 0))
          (sample_address addr_type.ipv6 8 (1, 0)) = false ∧
        address.eq (sample_address addr_type.ipv6 7 (1, 0))
          (sample_address addr_type.ipv6 8 (1, 0)) = true ∧
        address.lt (sample_address addr_type.ipv6 8 (1, 0))
          (sample_address addr_type.ipv6 7 (1, 0)) = false) ∨
      (address.lt (sample_address addr_type.ipv6 7 (1, 0))
          (sample_address addr_type.ipv6 8 (1, 0)) = false ∧
        address.eq (sample_address addr_type.ipv6 7 (1, 0))
          (sample_address addr_type.ipv6 8 (1, 0)) = false ∧
        address.lt (sample_address addr_type.ipv6 8 (1, 0))
          (sample_address addr_type.ipv6 7 (1, 0)) = true)) ∧
    (address.eq (sample_address addr_type.ipv6 7 (1, 0))
        (sample_address addr_type.ipv6 8 (1, 0)) = true ↔
      (address.lt (sample_address addr_type.ipv6 7 (1, 0))
          (sample_address addr_type.ipv6 8 (1, 0)) = false ∧
        address.lt (sample_address addr_type.ipv6 8 (1, 0))
          (sample_address addr_type.ipv6 7 (1, 0)) = false)) :=
  lt_consistent_with_eq sample_v4 sample_v6 sample_v4_total sample_v6_total
    (sample_address addr_type.ipv6 7 (1, 0))
    (sample_address addr_type.ipv6 8 (1, 0))

/-- C5: when the leaf equalities of `address_v4` and `address_v6` are equivalence
relations, `operator==` on `address` is an equivalence relation over all
addresses, same-family and mixed-family alike: reflexive, symmetric and
transitive. -/
theorem eq_equivalence (V4 V6 : Leaf)
    (h4 : EquivalenceB V4.eq) (h6 : EquivalenceB V6.eq) :
    EquivalenceB (@address.eq V4 V6) := by
  refine ⟨?_, ?_, ?_⟩
  · rintro ⟨t, p, q⟩
    cases t <;> simp [address.eq]
    · exact h4.refl p
    · exact h6.refl q
  · rintro ⟨t1, p1, q1⟩ ⟨t2, p2, q2⟩
    cases t1 <;> cases t2 <;> simp [address.eq]
    · exact h4.symm p1 p2
    · exact h6.symm q1 q2
  · rintro ⟨t1, p1, q1⟩ ⟨t2, p2, q2⟩ ⟨t3, p3, q3⟩
    cases t1 <;> cases t2 <;> cases t3 <;> simp [address.eq]
    · exact h4.trans p1 p2 p3
    · exact h6.trans q1 q2 q3

theorem eq_equivalence_witness :
    EquivalenceB (@address.eq sample_v4 sample_v6) :=
  eq_equivalence sample_v4 sample_v6 sample_v4_eq_equiv sample_v6_eq_equiv

/-! ## Parsing -/

/-- C6: `make_address(str, ec)` tries the IPv6 parser first and the IPv4 parser
second. If `make_address_v6` accepts `str` with value `v6`, the result is the
ipv6-family address wrapping `v6`, with success, whatever the IPv4 parser would
do with `str`; if `make_address_v6` rejects `str` and `make_address_v4` then
accepts it with value `v4`, the result is the ipv4-family address wrapping
`v4`, with success. -/
theorem make_address_v6_then_v4 (V4 V6 : Leaf) (str : String) (ec : error_code) :
    (∀ (v6 : V6.T) (e6 : error_code),
      V6.make str ec = (v6, e6) → e6.failed = false →
        make_address V4 V6 str ec = (address.of_v6 v6, e6) ∧
        (make_address V4 V6 str ec).1.type_ = addr_type.ipv6 ∧
        (make_address V4 V6 str ec).1.ipv6_address_ = v6 ∧
        (make_address V4 V6 str ec).2.failed = false) ∧
    (∀ (v6 : V6.T) (e6 : error_code) (v4 : V4.T) (e4 : error_code),
      V6.make str ec = (v6, e6) → e6.failed = true →
      V4.make str e6 = (v4, e4) → e4.failed = false →
        make_address V4 V6 str ec = (address.of_v4 v4, e4) ∧
        (make_address V4 V6 str ec).1.type_ = addr_type.ipv4 ∧
        (make_address V4 V6 str ec).1.ipv4_address_ = v4 ∧
        (make_address V4 V6 str ec).2.failed = false) := by
  constructor
  · intro v6 e6 h6 hok
    simp [make_address, h6, hok, address.of_v6]
  · intro v6 e6 v4 e4 h6 hbad h4 hok
    simp [make_address, h6, hbad, h4, hok, address.of_v4]

theorem make_address_v6_then_v4_witness :
    (make_address sample_v4 sample_v4 "127.0.0.1" invalid_argument =
        (address.of_v6 (2130706433 : Nat), error_code.cleared) ∧
      (make_address sample_v4 sample_v4 "127.0.0.1" invalid_argument).1.type_ =
        addr_type.ipv6 ∧
      (make_address sample_v4 sample_v4 "127.0.0.1" invalid_argument).1.ipv6_address_ =
        (2130706433 : Nat) ∧
      (make_address sample_v4 sample_v4 "127.0.0.1" invalid_argument).2.failed = false) ∧
    (make_address sample_v4 sample_v6 "127.0.0.1" error_code.cleared =
        (address.of_v4 (2130706433 : Nat), error_code.cleared) ∧
      (make_address sample_v4 sample_v6 "127.0.0.1" error_code.cleared).1.type_ =
        addr_type.ipv4 ∧
      (make_address sample_v4 sample_v6 "127.0.0.1" error_code.cleared).1.ipv4_address_ =
        (2130706433 : Nat) ∧
      (make_address sample_v4 sample_v6 "127.0.0.1" error_code.cleared).2.failed = false) :=
  ⟨(make_address_v6_then_v4 sample_v4 sample_v4 "127.0.0.1" invalid_argument).1
      (2130706433 : Nat) error_code.cleared rfl (by decide),
   (make_address_v6_then_v4 sample_v4 sample_v6 "127.0.0.1" error_code.cleared).2
      ((0, 0) : Nat × Nat) invalid_argument (2130706433 : Nat) error_code.cleared
      rfl (by decide) rfl (by decide)⟩

/-- C7: for text that both leaf parsers reject, `make_address(str, ec)` reports
failure and returns the default address `address()`: family ipv4 with the
default `address_v4` payload, whatever values the two parse attempts
produced. The error left in `ec` is the one of the IPv4 attempt. -/
theorem make_address_both_rejected (V4 V6 : Leaf) (str : String) (ec : error_code)
    (h6 : (V6.make str ec).2.failed = true)
    (h4 : (V4.make str (V6.make str ec).2).2.failed = true) :
    (make_address V4 V6 str ec).1 = address.default ∧
    (make_address V4 V6 str ec).1.type_ = addr_type.ipv4 ∧
    (make_address V4 V6 str ec).1.ipv4_address_ = V4.dflt ∧
    (make_address V4 V6 str ec).1 = address.of_v4 V4.dflt ∧
    (make_address V4 V6 str ec).2 = (V4.make str (V6.make str ec).2).2 ∧
    (make_address V4 V6 str ec).2.failed = true := by
  simp [make_address, h6, h4, address.default, address.of_v4]

theorem make_address_both_rejected_witness :
    (make_address sample_v4 sample_v6 "not_an_address" error_code.cleared).1 =
      address.default ∧
    (make_address sample_v4 sample_v6 "not_an_address" error_code.cleared).1.type_ =
      addr_type.ipv4 ∧
    (make_address sample_v4 sample_v6 "not_an_address" error_code.cleared).1.ipv4_address_ =
      sample_v4.dflt ∧
    (make_address sample_v4 sample_v6 "not_an_address" error_code.cleared).1 =
      address.of_v4 sample_v4.dflt ∧
    (make_address sample_v4 sample_v6 "not_an_address" error_code.cleared).2 =
      (sample_v4.make "not_an_address"
        (sample_v6.make "not_an_address" error_code.cleared).2).2 ∧
    (make_address sample_v4 sample_v6 "not_an_address" error_code.cleared).2.failed = true :=
  make_address_both_rejected sample_v4 sample_v6 "not_an_address" error_code.cleared
    (by decide) (by decide)

/-- The error `make_address(str, ec)` leaves is an error exactly when both parse
attempts of this call left one. -/
theorem make_address_failed_iff (V4 V6 : Leaf) (str : String) (ec : error_code) :
    (make_address V4 V6 str ec).2.failed = true ↔
      ((V6.make str ec).2.failed = true ∧
        (V4.make str (V6.make str ec).2).2.failed = true) := by
  unfold make_address
  cases h6 : (V6.make str ec).2.failed <;>
    cases h4 : (V4.make str (V6.make str ec).2).2.failed <;> simp [h6, h4]

/-- C8: the non-throwing `make_address(str, ec)` is a total function of `str`
alone. With leaf parsers that write `ec` on every call, the address returned
and the error left do not depend on the value `ec` held on entry; `ec` holds
an error afterwards exactly when both leaf parsers reject `str`, and is clear
on every success, also after a failed IPv6 attempt and also when the caller
passed in an `ec` that held an error. -/
theorem make_address_ec_depends_only_on_str (V4 V6 : Leaf)
    (h4 : WritesEc V4.make) (h6 : WritesEc V6.make)
    (str : String) (ec ec0 : error_code) :
    make_address V4 V6 str ec = make_address V4 V6 str ec0 ∧
    ((make_address V4 V6 str ec).2.failed = true ↔
      ((V6.make str ec0).2.failed = true ∧ (V4.make str ec0).2.failed = true)) ∧
    (((V6.make str ec0).2.failed = false ∨ (V4.make str ec0).2.failed = false) →
      (make_address V4 V6 str ec).2.failed = false) := by
  have hiff : (make_address V4 V6 str ec).2.failed = true ↔
      ((V6.make str ec0).2.failed = true ∧ (V4.make str ec0).2.failed = true) := by
    rw [make_address_failed_iff, h6 str ec ec0, h4 str (V6.make str ec0).2 ec0]
  refine ⟨?_, hiff, ?_⟩
  · unfold make_address
    rw [h6 str ec ec0]
  · intro h
    cases hf : (make_address V4 V6 str ec).2.failed
    · rfl
    · have := hiff.1 hf
      rcases h with h | h
      · rw [this.1] at h; exact h
      · rw [this.2] at h; exact h

theorem make_address_ec_depends_only_on_str_witness :
    make_address sample_v4 sample_v6 "192.168.1.10" invalid_argument =
      make_address sample_v4 sample_v6 "192.168.1.10" error_code.cleared ∧
    ((make_address sample_v4 sample_v6 "192.168.1.10" invalid_argument).2.failed = true ↔
      ((sample_v6.make "192.168.1.10" error_code.cleared).2.failed = true ∧
        (sample_v4.make "192.168.1.10" error_code.cleared).2.failed = true)) ∧
    (((sample_v6.make "192.168.1.10" error_code.cleared).2.failed = false ∨
        (sample_v4.make "192.168.1.10" error_code.cleared).2.failed = false) →
      (make_address sample_v4 sample_v6 "192.168.1.10" invalid_argument).2.failed = false) :=
  make_address_ec_depends_only_on_str sample_v4 sample_v6
    sample_v4_writes_ec sample_v6_writes_ec "192.168.1.10" invalid_argument error_code.cleared

/-- C9: the throwing `make_address(str)` is the non-throwing form started from a
clear `ec`. It raises exactly when the non-throwing form leaves an error in
`ec`, the raised `system_error` carries exactly that error code, and when no
error is left it returns the address the non-throwing form returns. -/
theorem make_address_throwing_equiv (V4 V6 : Leaf) (str : String) :
    ((∃ e, make_address_throwing V4 V6 str = Except.error e) ↔
      (make_address V4 V6 str error_code.cleared).2.failed = true) ∧
    ((make_address V4 V6 str error_code.cleared).2.failed = true →
      make_address_throwing V4 V6 str =
        Except.error (exception.system_error
          (make_address V4 V6 str error_code.cleared).2)) ∧
    ((make_address V4 V6 str error_code.cleared).2.failed = false →
      make_address_throwing V4 V6 str =
        Except.ok (make_address V4 V6 str error_code.cleared).1) := by
  unfold make_address_throwing detail.throw_error
  cases h : (make_address V4 V6 str error_code.cleared).2.failed <;> simp [h]

theorem make_address_throwing_equiv_witness :
    make_address_throwing sample_v4 sample_v6 "not_an_address" =
      Except.error (exception.system_error
        (make_address sample_v4 sample_v6 "not_an_address" error_code.cleared).2) ∧
    make_address_throwing sample_v4 sample_v6 "::1" =
      Except.ok (make_address sample_v4 sample_v6 "::1" error_code.cleared).1 :=
  ⟨(make_address_throwing_equiv sample_v4 sample_v6 "not_an_address").2.1 (by decide),
   (make_address_throwing_equiv sample_v4 sample_v6 "::1").2.2 (by decide)⟩

/-! ## Family-specific extraction -/

/-- C10: family-specific extraction fails exactly on a family mismatch.
`a.to_v4()` raises `bad_address_cast` exactly when the family of `a` is ipv6 and
otherwise returns the IPv4 payload; `a.to_v6()` raises `bad_address_cast`
exactly when the family is ipv4 and otherwise returns the IPv6 payload. So
`address(v4).to_v4()` is `v4` and `address(v6).to_v6()` is `v6`, while
`address(v4).to_v6()` and `address(v6).to_v4()` raise. -/
theorem to_v4_to_v6_family_mismatch (V4 V6 : Leaf) (a : address V4 V6) :
    ((∃ e, a.to_v4 = Except.error e) ↔ a.type_ = addr_type.ipv6) ∧
    (a.type_ = addr_type.ipv6 → a.to_v4 = Except.error exception.bad_address_cast) ∧
    (a.type_ ≠ addr_type.ipv6 → a.to_v4 = Except.ok a.ipv4_address_) ∧
    ((∃ e, a.to_v6 = Except.error e) ↔ a.type_ = addr_type.ipv4) ∧
    (a.type_ = addr_type.ipv4 → a.to_v6 = Except.error exception.bad_address_cast) ∧
    (a.type_ ≠ addr_type.ipv4 → a.to_v6 = Except.ok a.ipv6_address_) ∧
    (∀ v4 : V4.T,
      (@address.of_v4 V4 V6 v4).to_v4 = Except.ok v4 ∧
      (@address.of_v4 V4 V6 v4).to_v6 = Except.error exception.bad_address_cast) ∧
    (∀ v6 : V6.T,
      (@address.of_v6 V4 V6 v6).to_v6 = Except.ok v6 ∧
      (@address.of_v6 V4 V6 v6).to_v4 = Except.error exception.bad_address_cast) := by
  obtain ⟨t, p, q⟩ := a
  cases t <;> simp [address.to_v4, address.to_v6, address.of_v4, address.of_v6]

theorem to_v4_to_v6_family_mismatch_witness :
    (sample_address addr_type.ipv6 5 (1, 0)).to_v4 =
      Except.error exception.bad_address_cast ∧
    (sample_address addr_type.ipv6 5 (1, 0)).to_v6 = Except.ok ((1, 0) : Nat × Nat) ∧
    (sample_address addr_type.ipv4 5 (1, 0)).to_v6 =
      Except.error exception.bad_address_cast ∧
    (sample_address addr_type.ipv4 5 (1, 0)).to_v4 = Except.ok (5 : Nat) :=
  ⟨(to_v4_to_v6_family_mismatch sample_v4 sample_v6
      (sample_address addr_type.ipv6 5 (1, 0))).2.1 rfl,
   (to_v4_to_v6_family_mismatch sample_v4 sample_v6
      (sample_address addr_type.ipv6 5 (1, 0))).2.2.2.2.2.1 (by decide),
   (to_v4_to_v6_family_mismatch sample_v4 sample_v6
      (sample_address addr_type.ipv4 5 (1, 0))).2.2.2.2.1 rfl,
   (to_v4_to_v6_family_mismatch sample_v4 sample_v6
      (sample_address addr_type.ipv4 5 (1, 0))).2.2.1 (by decide)⟩

/-! ## Parsing and formatting round trip -/

/-- The two sample grammars are disjoint: the sample IPv6 parser rejects every
text the sample IPv4 parser accepts. -/
theorem sample_grammars_disjoint (s : String) (e e1 : error_code)
    (h : (sample_v4.make s e).2.failed = false) :
    (sample_v6.make s e1).2.failed = true := by
  rw [sample_v6_writes_ec s e1 error_code.cleared]
  by_cases h1 : s = "0.0.0.0"
  · subst h1; decide
  · by_cases h2 : s = "127.0.0.1"
    · subst h2; decide
    · by_cases h3 : s = "192.168.1.10"
      · subst h3; decide
      · by_cases h4 : s = "224.0.0.1"
        · subst h4; decide
        · simp [sample_v4, sample_v4_table, h1, h2, h3, h4, invalid_argument,
            error_code.failed] at h

/-- C11: for every text `t` that the IPv4 parser accepts, `make_address(t)`
succeeds, the result has family ipv4, and re-parsing the result's `to_string()`
with `make_address` succeeds and yields an address equal (`operator==`) to the
first result. The leaf types are not part of `address.ipp`; what the statement
takes from them is, for the family, that the IPv6 parser rejects every text
the IPv4 parser accepts, and, for the re-parse, that the `address_v4`
formatting of the parsed value round-trips through the IPv4 parser. The last
part is the build without IPv6 support, where no IPv6 parser is asked. -/
theorem make_address_v4_text_roundtrip (V4 V6 : Leaf) (t : String) (ec : error_code)
    (v4 : V4.T)
    (hacc : ∀ e : error_code, (V4.make t e).1 = v4 ∧ (V4.make t e).2.failed = false) :
    ((∀ (s : String) (e e1 : error_code),
        (V4.make s e).2.failed = false → (V6.make s e1).2.failed = true) →
      (make_address V4 V6 t ec).2.failed = false ∧
      (make_address V4 V6 t ec).1.type_ = addr_type.ipv4 ∧
      (make_address V4 V6 t ec).1 = address.of_v4 v4 ∧
      ((∀ e : error_code,
          (V4.make (V4.to_string v4) e).2.failed = false ∧
          V4.eq (V4.make (V4.to_string v4) e).1 v4 = true) →
        ∀ ec1 : error_code,
          (make_address V4 V6 (make_address V4 V6 t ec).1.to_string ec1).2.failed = false ∧
          (make_address V4 V6 (make_address V4 V6 t ec).1.to_string ec1).1.type_ =
            addr_type.ipv4 ∧
          address.eq
            (make_address V4 V6 (make_address V4 V6 t ec).1.to_string ec1).1
            (make_address V4 V6 t ec).1 = true)) ∧
    ((v4only.make_address V4 t ec).2.failed = false ∧
      (v4only.make_address V4 t ec).1.type_ = addr_type.ipv4 ∧
      (v4only.make_address V4 t ec).1 = v4only.address.of_v4 v4 ∧
      ((∀ e : error_code,
          (V4.make (V4.to_string v4) e).2.failed = false ∧
          V4.eq (V4.make (V4.to_string v4) e).1 v4 = true) →
        ∀ ec1 : error_code,
          (v4only.make_address V4 (v4only.make_address V4 t ec).1.to_string ec1).2.failed
            = false ∧
          (v4only.make_address V4 (v4only.make_address V4 t ec).1.to_string ec1).1.type_ =
            addr_type.ipv4 ∧
          v4only.address.eq
            (v4only.make_address V4 (v4only.make_address V4 t ec).1.to_string ec1).1
            (v4only.make_address V4 t ec).1 = true)) := by
  constructor
  · intro hdisj
    have h6 : (V6.make t ec).2.failed = true := hdisj t ec ec (hacc ec).2
    have h4 := hacc (V6.make t ec).2
    have hr : make_address V4 V6 t ec =
        (address.of_v4 v4, (V4.make t (V6.make t ec).2).2) := by
      simp [make_address, h6, h4.1, h4.2]
    rw [hr]
    refine ⟨h4.2, rfl, rfl, ?_⟩
    intro hrt ec1
    have hs : (address.of_v4 v4 : address V4 V6).to_string = V4.to_string v4 := by
      simp [address.to_string, address.of_v4]
    have g6 : (V6.make (V4.to_string v4) ec1).2.failed = true :=
      hdisj (V4.to_string v4) ec1 ec1 (hrt ec1).1
    have g4 := hrt (V6.make (V4.to_string v4) ec1).2
    have hr2 : make_address V4 V6 (V4.to_string v4) ec1 =
        (address.of_v4 (V4.make (V4.to_string v4) (V6.make (V4.to_string v4) ec1).2).1,
          (V4.make (V4.to_string v4) (V6.make (V4.to_string v4) ec1).2).2) := by
      simp [make_address, g6, g4.1]
    simp only [hs, hr2]
    exact ⟨g4.1, rfl, by simp [address.eq, address.of_v4, g4.2]⟩
  · have h4 := hacc ec
    have hr : v4only.make_address V4 t ec = (v4only.address.of_v4 v4, (V4.make t ec).2) := by
      simp [v4only.make_address, h4.1, h4.2]
    rw [hr]
    refine ⟨h4.2, rfl, rfl, ?_⟩
    intro hrt ec1
    have g4 := hrt ec1
    have hr2 : v4only.make_address V4 (V4.to_string v4) ec1 =
        (v4only.address.of_v4 (V4.make (V4.to_string v4) ec1).1,
          (V4.make (V4.to_string v4) ec1).2) := by
      simp [v4only.make_address, g4.1]
    have hs : (v4only.address.of_v4 v4 : v4only.address V4).to_string = V4.to_string v4 :=
      rfl
    simp only [hs, hr2]
    exact ⟨g4.1, rfl, by simp [v4only.address.eq, v4only.address.of_v4, g4.2]⟩

theorem make_address_v4_text_roundtrip_witness :
    ((make_address sample_v4 sample_v6 "192.168.1.10" invalid_argument).2.failed = false ∧
      (make_address sample_v4 sample_v6 "192.168.1.10" invalid_argument).1.type_ =
        addr_type.ipv4 ∧
      (make_address sample_v4 sample_v6
          (make_address sample_v4 sample_v6 "192.168.1.10" invalid_argument).1.to_string
          invalid_argument).2.failed = false ∧
      address.eq
        (make_address sample_v4 sample_v6
          (make_address sample_v4 sample_v6 "192.168.1.10" invalid_argument).1.to_string
          invalid_argument).1
        (make_address sample_v4 sample_v6 "192.168.1.10" invalid_argument).1 = true) ∧
    ((v4only.make_address sample_v4 "192.168.1.10" invalid_argument).1.type_ =
        addr_type.ipv4 ∧
      v4only.address.eq
        (v4only.make_address sample_v4
          (v4only.make_address sample_v4 "192.168.1.10" invalid_argument).1.to_string
          invalid_argument).1
        (v4only.make_address sample_v4 "192.168.1.10" invalid_argument).1 = true) :=
  have hrt : ∀ e : error_code,
      (sample_v4.make (sample_v4.to_string (3232235786 : Nat)) e).2.failed = false ∧
      sample_v4.eq (sample_v4.make (sample_v4.to_string (3232235786 : Nat)) e).1
        (3232235786 : Nat) = true :=
    fun e =>
      (sample_v4_writes_ec (sample_v4.to_string (3232235786 : Nat)) error_code.cleared e) ▸
        (⟨by decide, by decide⟩ :
          (sample_v4.make (sample_v4.to_string (3232235786 : Nat))
              error_code.cleared).2.failed = false ∧
            sample_v4.eq
              (sample_v4.make (sample_v4.to_string (3232235786 : Nat))
                error_code.cleared).1 (3232235786 : Nat) = true)
  have h := make_address_v4_text_roundtrip sample_v4 sample_v6 "192.168.1.10"
    invalid_argument (3232235786 : Nat)
    (fun e =>
      (sample_v4_writes_ec "192.168.1.10" error_code.cleared e) ▸
        (⟨rfl, by decide⟩ :
          (sample_v4.make "192.168.1.10" error_code.cleared).1 = (3232235786 : Nat) ∧
            (sample_v4.make "192.168.1.10" error_code.cleared).2.failed = false))
  have h6 := h.1 sample_grammars_disjoint
  ⟨⟨h6.1, h6.2.1, (h6.2.2.2 hrt invalid_argument).1, (h6.2.2.2 hrt invalid_argument).2.2⟩,
   ⟨h.2.2.1, (h.2.2.2.2 hrt invalid_argument).2.2⟩⟩

/-- C12: with IPv6 support, for every text the IPv6 parser accepts,
`make_address` succeeds and the result has family ipv6; and when the leaf
`address_v6` formatting of the parsed value round-trips through the leaf IPv6
parser, re-parsing the result's `to_string()` succeeds and yields an address
equal (`operator==`) to the first result. -/
theorem make_address_v6_text_roundtrip (V4 V6 : Leaf) (t : String) (ec : error_code)
    (v6 : V6.T) (e6 : error_code)
    (h6 : V6.make t ec = (v6, e6)) (h6f : e6.failed = false)
    (hrt : ∀ ec1 : error_code,
      (V6.make (V6.to_string v6) ec1).2.failed = false ∧
      V6.eq (V6.make (V6.to_string v6) ec1).1 v6 = true) :
    (make_address V4 V6 t ec).2.failed = false ∧
    (make_address V4 V6 t ec).1.type_ = addr_type.ipv6 ∧
    (make_address V4 V6 t ec).1 = address.of_v6 v6 ∧
    (∀ ec1 : error_code,
      (make_address V4 V6 (make_address V4 V6 t ec).1.to_string ec1).2.failed = false ∧
      (make_address V4 V6 (make_address V4 V6 t ec).1.to_string ec1).1.type_ =
        addr_type.ipv6 ∧
      address.eq
        (make_address V4 V6 (make_address V4 V6 t ec).1.to_string ec1).1
        (make_address V4 V6 t ec).1 = true) := by
  have hr : make_address V4 V6 t ec = (address.of_v6 v6, e6) := by
    simp [make_address, h6, h6f]
  rw [hr]
  refine ⟨h6f, rfl, rfl, ?_⟩
  intro ec1
  have hs : (address.of_v6 v6 : address V4 V6).to_string = V6.to_string v6 := by
    simp [address.to_string, address.of_v6]
  obtain ⟨hf, he⟩ := hrt ec1
  have hr2 : make_address V4 V6 (V6.to_string v6) ec1 =
      (address.of_v6 (V6.make (V6.to_string v6) ec1).1,
        (V6.make (V6.to_string v6) ec1).2) := by
    simp [make_address, hf]
  simp only [hs, hr2]
  exact ⟨hf, rfl, by simp [address.eq, address.of_v6, he]⟩

theorem make_address_v6_text_roundtrip_witness :
    (make_address sample_v4 sample_v6 "::1" error_code.cleared).2.failed = false ∧
    (make_address sample_v4 sample_v6 "::1" error_code.cleared).1.type_ =
      addr_type.ipv6 ∧
    (make_address sample_v4 sample_v6
      (make_address sample_v4 sample_v6 "::1" error_code.cleared).1.to_string
      invalid_argument).2.failed = false ∧
    address.eq
      (make_address sample_v4 sample_v6
        (make_address sample_v4 sample_v6 "::1" error_code.cleared).1.to_string
        invalid_argument).1
      (make_address sample_v4 sample_v6 "::1" error_code.cleared).1 = true :=
  have h := make_address_v6_text_roundtrip sample_v4 sample_v6 "::1"
    error_code.cleared ((1, 0) : Nat × Nat) error_code.cleared rfl (by decide)
    (fun ec1 =>
      (sample_v6_writes_ec (sample_v6.to_string ((1, 0) : Nat × Nat)) error_code.cleared ec1) ▸
        (⟨by decide, by decide⟩ :
          (sample_v6.make (sample_v6.to_string ((1, 0) : Nat × Nat))
              error_code.cleared).2.failed = false ∧
            sample_v6.eq
              (sample_v6.make (sample_v6.to_string ((1, 0) : Nat × Nat))
                error_code.cleared).1 ((1, 0) : Nat × Nat) = true))
  ⟨h.1, h.2.1, (h.2.2.2 invalid_argument).1, (h.2.2.2 invalid_argument).2.2⟩

/-! ## Dispatch, construction and assignment -/

/-- C13: the three predicates and the formatter dispatch to the active payload
only. On `address(v4)` each of `is_loopback`, `is_unspecified`, `is_multicast`
and `to_string` gives what the same operation of `address_v4` gives on `v4`,
and on `address(v6)` what that of `address_v6` gives on `v6`; the same holds
whatever the inactive payload is. Each is a total function of the address: none
has a failing path of its own. -/
theorem predicates_dispatch_to_active_payload (V4 V6 : Leaf) :
    (∀ v4 : V4.T,
      (@address.of_v4 V4 V6 v4).is_loopback = V4.is_loopback v4 ∧
      (@address.of_v4 V4 V6 v4).is_unspecified = V4.is_unspecified v4 ∧
      (@address.of_v4 V4 V6 v4).is_multicast = V4.is_multicast v4 ∧
      (@address.of_v4 V4 V6 v4).to_string = V4.to_string v4) ∧
    (∀ v6 : V6.T,
      (@address.of_v6 V4 V6 v6).is_loopback = V6.is_loopback v6 ∧
      (@address.of_v6 V4 V6 v6).is_unspecified = V6.is_unspecified v6 ∧
      (@address.of_v6 V4 V6 v6).is_multicast = V6.is_multicast v6 ∧
      (@address.of_v6 V4 V6 v6).to_string = V6.to_string v6) ∧
    (∀ (p : V4.T) (q : V6.T),
      (@address.mk V4 V6 addr_type.ipv4 p q).is_loopback = V4.is_loopback p ∧
      (@address.mk V4 V6 addr_type.ipv4 p q).is_unspecified = V4.is_unspecified p ∧
      (@address.mk V4 V6 addr_type.ipv4 p q).is_multicast = V4.is_multicast p ∧
      (@address.mk V4 V6 addr_type.ipv4 p q).to_string = V4.to_string p ∧
      (@address.mk V4 V6 addr_type.ipv6 p q).is_loopback = V6.is_loopback q ∧
      (@address.mk V4 V6 addr_type.ipv6 p q).is_unspecified = V6.is_unspecified q ∧
      (@address.mk V4 V6 addr_type.ipv6 p q).is_multicast = V6.is_multicast q ∧
      (@address.mk V4 V6 addr_type.ipv6 p q).to_string = V6.to_string q) := by
  refine ⟨fun v4 => ?_, fun v6 => ?_, fun p q => ?_⟩ <;>
    simp [address.of_v4, address.of_v6, address.is_loopback, address.is_unspecified,
      address.is_multicast, address.to_string]

/-- C14: the default-constructed address has family ipv4 and carries the default
`address_v4`. It is field for field `address(address_v4())`, `operator==`
between the two is `address_v4() == address_v4()`, `to_v4()` succeeds on it and
returns `address_v4()`, and its `is_unspecified()` is that of `address_v4()`.
The same holds in the build without IPv6 support. -/
theorem default_is_unspecified_v4 (V4 V6 : Leaf) :
    (@address.default V4 V6).type_ = addr_type.ipv4 ∧
    (@address.default V4 V6).ipv4_address_ = V4.dflt ∧
    @address.default V4 V6 = address.of_v4 V4.dflt ∧
    address.eq (@address.default V4 V6) (address.of_v4 V4.dflt) = V4.eq V4.dflt V4.dflt ∧
    (@address.default V4 V6).to_v4 = Except.ok V4.dflt ∧
    (@address.default V4 V6).is_unspecified = V4.is_unspecified V4.dflt ∧
    (@v4only.address.default V4).type_ = addr_type.ipv4 ∧
    @v4only.address.default V4 = v4only.address.of_v4 V4.dflt ∧
    v4only.address.eq (@v4only.address.default V4) (v4only.address.of_v4 V4.dflt) =
      V4.eq V4.dflt V4.dflt ∧
    (@v4only.address.default V4).to_v4 = Except.ok V4.dflt ∧
    (@v4only.address.default V4).is_unspecified = V4.is_unspecified V4.dflt := by
  simp [address.default, address.of_v4, address.eq, address.to_v4, address.is_unspecified,
    v4only.address.default, v4only.address.of_v4, v4only.address.eq, v4only.address.to_v4,
    v4only.address.is_unspecified]

/-- C15: assigning a family-specific value replaces the whole state, whatever the
prior state was. After `a = v4` the address is field for field `address(v4)`:
family ipv4, IPv4 payload `v4`, IPv6 payload reset to the default; after
`a = v6` it is field for field `address(v6)`. The assignments are total. -/
theorem assign_family_value_replaces_state (V4 V6 : Leaf) (a b : address V4 V6) :
    (∀ v4 : V4.T,
      a.assign_v4 v4 = address.of_v4 v4 ∧
      (a.assign_v4 v4).type_ = addr_type.ipv4 ∧
      (a.assign_v4 v4).ipv4_address_ = v4 ∧
      (a.assign_v4 v4).ipv6_address_ = V6.dflt ∧
      a.assign_v4 v4 = b.assign_v4 v4) ∧
    (∀ v6 : V6.T,
      a.assign_v6 v6 = address.of_v6 v6 ∧
      (a.assign_v6 v6).type_ = addr_type.ipv6 ∧
      (a.assign_v6 v6).ipv4_address_ = V4.dflt ∧
      (a.assign_v6 v6).ipv6_address_ = v6 ∧
      a.assign_v6 v6 = b.assign_v6 v6) := by
  refine ⟨fun v4 => ?_, fun v6 => ?_⟩ <;>
    simp [address.assign_v4, address.assign_v6, address.of_v4, address.of_v6]

/-- C16: the inactive payload is never observed. Two addresses with the same
family and the same active payload, whatever their inactive payloads, give the
same `to_string`, `is_loopback`, `is_unspecified`, `is_multicast`, the same
`to_v4` and `to_v6` (result or `bad_address_cast`), and the same `operator==`
and `operator<` against any third address, on either side. -/
theorem inactive_payload_unobserved (V4 V6 : Leaf) (a b : address V4 V6)
    (ht : a.type_ = b.type_)
    (h4 : a.type_ = addr_type.ipv4 → a.ipv4_address_ = b.ipv4_address_)
    (h6 : a.type_ = addr_type.ipv6 → a.ipv6_address_ = b.ipv6_address_) :
    a.to_string = b.to_string ∧
    a.is_loopback = b.is_loopback ∧
    a.is_unspecified = b.is_unspecified ∧
    a.is_multicast = b.is_multicast ∧
    a.to_v4 = b.to_v4 ∧
    a.to_v6 = b.to_v6 ∧
    (∀ c : address V4 V6,
      address.eq a c = address.eq b c ∧ address.eq c a = address.eq c b ∧
      address.lt a c = address.lt b c ∧ address.lt c a = address.lt c b) := by
  obtain ⟨ta, pa, qa⟩ := a
  obtain ⟨tb, pb, qb⟩ := b
  simp only at ht h4 h6
  subst ht
  cases ta
  · have hp : pa = pb := h4 rfl
    subst hp
    refine ⟨?_, ?_, ?_, ?_, ?_, ?_, ?_⟩ <;>
      try simp [address.to_string, address.is_loopback, address.is_unspecified,
        address.is_multicast, address.to_v4, address.to_v6]
    rintro ⟨tc, pc, qc⟩
    cases tc <;> simp [address.eq, address.lt, addr_type.toNat]
  · have hq : qa = qb := h6 rfl
    subst hq
    refine ⟨?_, ?_, ?_, ?_, ?_, ?_, ?_⟩ <;>
      try simp [address.to_string, address.is_loopback, address.is_unspecified,
        address.is_multicast, address.to_v4, address.to_v6]
    rintro ⟨tc, pc, qc⟩
    cases tc <;> simp [address.eq, address.lt, addr_type.toNat]

theorem inactive_payload_unobserved_witness :
    (sample_address addr_type.ipv6 7 (1, 0)).to_string =
      (sample_address addr_type.ipv6 9 (1, 0)).to_string ∧
    (sample_address addr_type.ipv6 7 (1, 0)).to_v4 =
      (sample_address addr_type.ipv6 9 (1, 0)).to_v4 ∧
    (sample_address addr_type.ipv6 7 (1, 0)).to_v6 =
      (sample_address addr_type.ipv6 9 (1, 0)).to_v6 ∧
    address.lt (sample_address addr_type.ipv6 7 (1, 0))
        (sample_address addr_type.ipv6 0 (1, 3)) =
      address.lt (sample_address addr_type.ipv6 9 (1, 0))
        (sample_address addr_type.ipv6 0 (1, 3)) :=
  have h := inactive_payload_unobserved sample_v4 sample_v6
    (sample_address addr_type.ipv6 7 (1, 0)) (sample_address addr_type.ipv6 9 (1, 0))
    rfl (fun h => absurd h (by decide)) (fun _ => rfl)
  ⟨h.1, h.2.2.2.2.1, h.2.2.2.2.2.1,
    (h.2.2.2.2.2.2 (sample_address addr_type.ipv6 0 (1, 3))).2.2.1⟩

/-! ## Representation invariant -/

/-- Every result of the non-throwing `make_address` satisfies the invariant. -/
theorem make_address_inactive_default (V4 V6 : Leaf) (str : String) (ec : error_code) :
    inactive_default (make_address V4 V6 str ec).1 := by
  unfold make_address
  simp only []
  split
  · simp [inactive_default, address.of_v6]
  · split
    · simp [inactive_default, address.of_v4]
    · simp [inactive_default, address.default]

/-- What the throwing `make_address` returns is what the non-throwing form
returns from a clear `ec`. -/
theorem make_address_throwing_ok (V4 V6 : Leaf) (str : String) (a : address V4 V6)
    (h : make_address_throwing V4 V6 str = Except.ok a) :
    a = (make_address V4 V6 str error_code.cleared).1 := by
  unfold make_address_throwing detail.throw_error at h
  cases hf : (make_address V4 V6 str error_code.cleared).2.failed
  · simp [hf] at h
    exact h.symm
  · simp [hf] at h

/-- C17: in every address reachable through the public operations (default
construction, construction from `address_v4` or `address_v6`, copy and move,
the assignment operators, and every result of `make_address`) the inactive
payload is the default value of its leaf type: the IPv4 payload is
`address_v4()` when the family is ipv6 and the IPv6 payload is `address_v6()`
when the family is ipv4. -/
theorem reachable_inactive_default (V4 V6 : Leaf) (a : address V4 V6)
    (h : Reachable V4 V6 a) :
    (a.type_ = addr_type.ipv6 → a.ipv4_address_ = V4.dflt) ∧
    (a.type_ = addr_type.ipv4 → a.ipv6_address_ = V6.dflt) := by
  induction h with
  | default => simp [address.default]
  | of_v4 v => simp [address.of_v4]
  | of_v6 v => simp [address.of_v6]
  | copy other _ ih => simpa [address.copy] using ih
  | assign a other _ _ _ ih => simpa [address.assign] using ih
  | assign_v4 a v _ _ => simp [address.assign_v4]
  | assign_v6 a v _ _ => simp [address.assign_v6]
  | make_address str ec => exact make_address_inactive_default V4 V6 str ec
  | make_address_throwing str a hok =>
    rw [make_address_throwing_ok V4 V6 str a hok]
    exact make_address_inactive_default V4 V6 str error_code.cleared

theorem reachable_inactive_default_witness :
    ((address.assign (address.of_v4 (3232235786 : Nat))
        (make_address sample_v4 sample_v6 "::1" error_code.cleared).1).type_ =
          addr_type.ipv6 →
      (address.assign (address.of_v4 (3232235786 : Nat))
        (make_address sample_v4 sample_v6 "::1" error_code.cleared).1).ipv4_address_ =
          sample_v4.dflt) ∧
    ((address.assign (address.of_v4 (3232235786 : Nat))
        (make_address sample_v4 sample_v6 "::1" error_code.cleared).1).type_ =
          addr_type.ipv4 →
      (address.assign (address.of_v4 (3232235786 : Nat))
        (make_address sample_v4 sample_v6 "::1" error_code.cleared).1).ipv6_address_ =
          sample_v6.dflt) :=
  reachable_inactive_default sample_v4 sample_v6 _
    (Reachable.assign _ _ (Reachable.of_v4 (3232235786 : Nat))
      (Reachable.make_address "::1" error_code.cleared))

/-! ## The string overloads -/

/-- Cutting a character list at its first NUL gives back a NUL-free prefix. -/
theorem takeWhile_nul_prefix (l rest : List Char) (h : ∀ c ∈ l, c ≠ Char.ofNat 0) :
    (l ++ Char.ofNat 0 :: rest).takeWhile (fun c => c != Char.ofNat 0) = l := by
  induction l with
  | nil => simp
  | cons x xs ih =>
    have hx : x ≠ Char.ofNat 0 := h x (List.mem_cons_self x xs)
    have hxs : ∀ c ∈ xs, c ≠ Char.ofNat 0 := fun c hc => h c (List.mem_cons_of_mem x hc)
    have hb : (x != Char.ofNat 0) = true := by simpa using hx
    simp only [List.cons_append, List.takeWhile_cons, hb, ih hxs]
    simp

/-- The C string of a string with an embedded NUL is the part before the NUL. -/
theorem c_str_prefix (p rest : String) (h : ∀ c ∈ p.data, c ≠ Char.ofNat 0) :
    c_str (p ++ String.singleton (Char.ofNat 0) ++ rest) = p := by
  unfold c_str
  have hd : (p ++ String.singleton (Char.ofNat 0) ++ rest).data =
      p.data ++ Char.ofNat 0 :: rest.data := by
    simp [String.data_append, String.singleton]
  rw [hd, takeWhile_nul_prefix p.data rest.data h]

/-- Cutting twice at the first element failing a test is cutting once. -/
theorem takeWhile_idem {α : Type} (p : α → Bool) (l : List α) :
    (l.takeWhile p).takeWhile p = l.takeWhile p := by
  induction l with
  | nil => rfl
  | cons x xs ih =>
    cases h : p x <;> simp [List.takeWhile_cons, h, ih]

/-- The C string of a C string is itself. -/
theorem c_str_idem (s : String) : c_str (c_str s) = c_str s := by
  unfold c_str
  simp only [takeWhile_idem]

/-- A NUL-free string is its own C string. -/
theorem c_str_of_no_nul (p : String) (h : ∀ c ∈ p.data, c ≠ Char.ofNat 0) :
    c_str p = p := by
  have hp := c_str_prefix p "" h
  calc c_str p = c_str (c_str (p ++ String.singleton (Char.ofNat 0) ++ "")) := by rw [hp]
    _ = c_str (p ++ String.singleton (Char.ofNat 0) ++ "") := c_str_idem _
    _ = p := hp

/-- C18: the `std::string` and `string_view` overloads of `make_address`,
throwing and non-throwing, give exactly what the `const char*` overload gives
on `s.c_str()`. So the result depends only on the part of `s` before its first
NUL: a string with an embedded NUL parses exactly like its prefix up to that
NUL, whatever follows it. -/
theorem string_overloads_use_c_str (V4 V6 : Leaf) (s : String) (ec : error_code) :
    make_address_string V4 V6 s ec = make_address V4 V6 (c_str s) ec ∧
    make_address_string_throwing V4 V6 s = make_address_throwing V4 V6 (c_str s) ∧
    make_address_string_view V4 V6 s ec = make_address V4 V6 (c_str s) ec ∧
    make_address_string_view_throwing V4 V6 s = make_address_throwing V4 V6 (c_str s) ∧
    make_address_string V4 V6 s ec = make_address_string V4 V6 (c_str s) ec ∧
    make_address_string_throwing V4 V6 s = make_address_string_throwing V4 V6 (c_str s) ∧
    (∀ p rest : String, (∀ c ∈ p.data, c ≠ Char.ofNat 0) →
      make_address_string V4 V6 (p ++ String.singleton (Char.ofNat 0) ++ rest) ec =
        make_address_string V4 V6 p ec ∧
      make_address_string V4 V6 (p ++ String.singleton (Char.ofNat 0) ++ rest) ec =
        make_address V4 V6 p ec ∧
      make_address_string_throwing V4 V6 (p ++ String.singleton (Char.ofNat 0) ++ rest) =
        make_address_string_throwing V4 V6 p ∧
      make_address_string_view V4 V6 (p ++ String.singleton (Char.ofNat 0) ++ rest) ec =
        make_address_string_view V4 V6 p ec ∧
      make_address_string_view_throwing V4 V6
          (p ++ String.singleton (Char.ofNat 0) ++ rest) =
        make_address_string_view_throwing V4 V6 p) := by
  refine ⟨rfl, rfl, rfl, rfl, ?_, ?_, ?_⟩
  · simp only [make_address_string, c_str_idem]
  · simp only [make_address_string_throwing, c_str_idem]
  · intro p rest h
    simp [make_address_string, make_address_string_throwing, make_address_string_view,
      make_address_string_view_throwing, c_str_prefix p rest h, c_str_of_no_nul p h]

theorem string_overloads_use_c_str_witness :
    make_address_string sample_v4 sample_v6
        ("127.0.0.1" ++ String.singleton (Char.ofNat 0) ++ "::1") error_code.cleared =
      make_address_string sample_v4 sample_v6 "127.0.0.1" error_code.cleared ∧
    make_address_string sample_v4 sample_v6
        ("127.0.0.1" ++ String.singleton (Char.ofNat 0) ++ "::1") error_code.cleared =
      make_address sample_v4 sample_v6 "127.0.0.1" error_code.cleared :=
  have h := (string_overloads_use_c_str sample_v4 sample_v6 "" error_code.cleared).2.2.2.2.2.2
    "127.0.0.1" "::1" (by decide)
  ⟨h.1, h.2.1⟩

/-! ## The build without IPv6 support -/

/-- In the build without IPv6 support every reachable address has family ipv4. -/
theorem v4only_reachable_ipv4 (V4 : Leaf) (a : v4only.address V4)
    (h : v4only.Reachable V4 a) : a.type_ = addr_type.ipv4 := by
  induction h with
  | default => rfl
  | of_v4 v => rfl
  | copy other _ ih => simpa [v4only.address.copy] using ih
  | assign a other _ _ _ ih => simpa [v4only.address.assign] using ih
  | assign_v4 a v _ _ => rfl
  | make_address str ec =>
    unfold v4only.make_address
    simp only []
    split <;> rfl
  | make_address_throwing str a hok =>
    unfold v4only.make_address_throwing detail.throw_error at hok
    cases hf : (v4only.make_address V4 str error_code.cleared).2.failed
    · simp [hf] at hok
      rw [← hok]
      unfold v4only.make_address
      simp only []
      split <;> rfl
    · simp [hf] at hok

/-- C19: without IPv6 support the address type is a faithful wrapper of
`address_v4`. Every reachable address has family ipv4 and `to_v4()` returns its
payload without raising; `make_address(str, ec)` leaves in `ec` what
`make_address_v4` leaves, so it succeeds exactly when `make_address_v4` accepts
`str`, returning `address(v4)` for the parsed value and `address()` otherwise;
and `operator==`, `operator<`, `to_string` and the three predicates coincide
with those of `address_v4` on the wrapped payloads. -/
theorem v4only_faithful_wrapper (V4 : Leaf) (a b : v4only.address V4)
    (ha : v4only.Reachable V4 a) (hb : v4only.Reachable V4 b) :
    a.type_ = addr_type.ipv4 ∧
    a.to_v4 = Except.ok a.ipv4_address_ ∧
    (∀ (str : String) (ec : error_code),
      (v4only.make_address V4 str ec).2 = (V4.make str ec).2 ∧
      ((v4only.make_address V4 str ec).2.failed = false ↔
        (V4.make str ec).2.failed = false) ∧
      ((V4.make str ec).2.failed = false →
        (v4only.make_address V4 str ec).1 = v4only.address.of_v4 (V4.make str ec).1) ∧
      ((V4.make str ec).2.failed = true →
        (v4only.make_address V4 str ec).1 = v4only.address.default)) ∧
    v4only.address.eq a b = V4.eq a.ipv4_address_ b.ipv4_address_ ∧
    v4only.address.lt a b = V4.lt a.ipv4_address_ b.ipv4_address_ ∧
    a.to_string = V4.to_string a.ipv4_address_ ∧
    a.is_loopback = V4.is_loopback a.ipv4_address_ ∧
    a.is_unspecified = V4.is_unspecified a.ipv4_address_ ∧
    a.is_multicast = V4.is_multicast a.ipv4_address_ := by
  have hta := v4only_reachable_ipv4 V4 a ha
  have htb := v4only_reachable_ipv4 V4 b hb
  refine ⟨hta, ?_, ?_, ?_, ?_, rfl, rfl, rfl, rfl⟩
  · simp [v4only.address.to_v4, hta]
  · intro str ec
    unfold v4only.make_address
    cases hf : (V4.make str ec).2.failed <;> simp [hf]
  · simp [v4only.address.eq, hta, htb]
  · simp [v4only.address.lt, hta, htb]

theorem v4only_faithful_wrapper_witness :
    (v4only.make_address sample_v4 "224.0.0.1" error_code.cleared).1.type_ =
      addr_type.ipv4 ∧
    (v4only.make_address sample_v4 "224.0.0.1" error_code.cleared).1.to_v4 =
      Except.ok (v4only.make_address sample_v4 "224.0.0.1"
        error_code.cleared).1.ipv4_address_ ∧
    v4only.address.lt (v4only.make_address sample_v4 "224.0.0.1" error_code.cleared).1
        (v4only.address.assign_v4 v4only.address.default (5 : Nat)) =
      sample_v4.lt
        (v4only.make_address sample_v4 "224.0.0.1" error_code.cleared).1.ipv4_address_
        (v4only.address.assign_v4 (@v4only.address.default sample_v4)
          (5 : Nat)).ipv4_address_ :=
  have h := v4only_faithful_wrapper sample_v4
    (v4only.make_address sample_v4 "224.0.0.1" error_code.cleared).1
    (v4only.address.assign_v4 v4only.address.default (5 : Nat))
    (v4only.Reachable.make_address "224.0.0.1" error_code.cleared)
    (v4only.Reachable.assign_v4 _ _ v4only.Reachable.default)
  ⟨h.1, h.2.1, h.2.2.2.2.1⟩

end ip
end asio
